import Mathlib

/-!
# Verification of the Sobey Template-1/2 PDF parser core

Shallow embedding of `src/main.py` (class `SobeyTemplate1PdfParser`).  Text is
modelled as `List Char`; every Python regular expression used by the source is
transliterated into a direct, executable character-level matcher whose
backtracking behaviour is spelled out explicitly.  Character classes follow the
ASCII fragment of Python's `\s`, `\d`, `\w` (the documents handled by the
parser are extracted ASCII text).
-/

/-- Python regex `\s` (ASCII fragment): space, tab, newline, CR, VT, FF. -/
def pyWs (c : Char) : Bool :=
  c = ' ' || c = '\t' || c = '\n' || c = '\r' || c = '\x0b' || c = '\x0c'

/-- Python regex `\d` (ASCII). -/
def pyDigit (c : Char) : Bool := '0' ≤ c && c ≤ '9'

/-- ASCII letter. -/
def pyAlpha (c : Char) : Bool := ('a' ≤ c && c ≤ 'z') || ('A' ≤ c && c ≤ 'Z')

/-- ASCII uppercase letter (regex `[A-Z]`). -/
def pyUpper (c : Char) : Bool := 'A' ≤ c && c ≤ 'Z'

/-- Python regex `\w` (ASCII fragment): letters, digits, underscore. -/
def pyWord (c : Char) : Bool := pyAlpha c || pyDigit c || c = '_'

/-- Characters of the class `[0-9,]` used by the Cube/Weight/Pieces captures. -/
def pyNumComma (c : Char) : Bool := pyDigit c || c = ','

/-- ASCII lower-casing, used for the `re.IGNORECASE` matchers. -/
def lowC (c : Char) : Char := c.toLower

/-- Numeric value of a digit character. -/
def digitVal (c : Char) : Nat := c.toNat - 48

/-- Python `int` on a string of digits. -/
def digitsToNat (l : List Char) : Nat := l.foldl (fun a c => 10 * a + digitVal c) 0

/-- Worker for `re.sub(r'\s+', ' ', s)`: every maximal whitespace run becomes a
single `' '`.  The flag records whether we are inside a run that has already
emitted its space. -/
def collapseAux : List Char → Bool → List Char
  | [], _ => []
  | c :: cs, inWs =>
    if pyWs c then
      if inWs then collapseAux cs true else ' ' :: collapseAux cs true
    else
      c :: collapseAux cs false

/-- `re.sub(r'\s+', ' ', s)`. -/
def collapseWs (l : List Char) : List Char := collapseAux l false

/-- Python `str.strip()` (ASCII whitespace). -/
def pyStrip (l : List Char) : List Char :=
  ((l.dropWhile pyWs).reverse.dropWhile pyWs).reverse

/-- Case-sensitive literal: consume `pat` from the front of the input, return
the rest on success. -/
def matchLit : List Char → List Char → Option (List Char)
  | [], cs => some cs
  | _ :: _, [] => none
  | p :: ps, c :: cs => if c = p then matchLit ps cs else none

/-- Case-insensitive literal (regexes compiled with `re.IGNORECASE`). -/
def matchLitCI : List Char → List Char → Option (List Char)
  | [], cs => some cs
  | _ :: _, [] => none
  | p :: ps, c :: cs => if lowC c = lowC p then matchLitCI ps cs else none

/-! ## Date conversion (`convert_date_format`, main.py lines 67-82)

`datetime.strptime(date_str, "%b %d, %Y %I:%M:%S %p")` followed by
`strftime("%d/%m/%Y")`.  The directives below reproduce CPython's
`_strptime.TimeRE` patterns:
`%b` = the twelve abbreviated month names (case-insensitive),
`%d` = `3[01]|[12]\d|0[1-9]|[1-9]`, `%I` = `1[0-2]|0[1-9]|[1-9]`,
`%M` = `[0-5]\d|\d`, `%S` = `6[0-1]|[0-5]\d|\d`, `%Y` = `\d\d\d\d`,
`%p` = `am|pm` (case-insensitive); whitespace in the format matches `\s+`;
the whole input must be consumed ("unconverted data remains" otherwise).
The `datetime` constructor additionally validates `1 <= year`,
`day <= days in month` (with leap years) and `second <= 59`. -/

/-- The abbreviated month names of `%b`, in `TimeRE` order. -/
def monthAbbrevs : List (List Char) :=
  ["jan".data, "feb".data, "mar".data, "apr".data, "may".data, "jun".data,
   "jul".data, "aug".data, "sep".data, "oct".data, "nov".data, "dec".data]

/-- Try each month abbreviation (case-insensitively) at the head of the input;
`i` is the month number of the first candidate.  The abbreviations are
pairwise incompatible, so the alternation is deterministic. -/
def parseMonthAux : List (List Char) → Nat → List Char → Option (Nat × List Char)
  | [], _, _ => none
  | m :: ms, i, cs =>
    match matchLitCI m cs with
    | some r => some (i, r)
    | none => parseMonthAux ms (i + 1) cs

/-- `%b`: month abbreviation, returning the month number 1-12. -/
def parseMonth (cs : List Char) : Option (Nat × List Char) :=
  parseMonthAux monthAbbrevs 1 cs

/-- One digit character. -/
def readDigit : List Char → Option (Nat × List Char)
  | c :: cs => if pyDigit c then some (digitVal c, cs) else none
  | [] => none

/-- `%Y`: exactly four digits. -/
def read4Digits (cs : List Char) : Option (Nat × List Char) := do
  let (a, r1) ← readDigit cs
  let (b, r2) ← readDigit r1
  let (c, r3) ← readDigit r2
  let (d, r4) ← readDigit r3
  some (1000 * a + 100 * b + 10 * c + d, r4)

/-- `%d` = `3[01]|[12]\d|0[1-9]|[1-9]`.  The two-character alternatives are
tried first (regex alternation order); the one-digit fallback hands the second
character back.  Since the directive is always followed by a non-digit literal
in the format, this deterministic reading agrees with the backtracking
engine. -/
def parseDayTok : List Char → Option (Nat × List Char)
  | a :: b :: r =>
    if a = '3' && (b = '0' || b = '1') then some (30 + digitVal b, r)
    else if (a = '1' || a = '2') && pyDigit b then some (10 * digitVal a + digitVal b, r)
    else if a = '0' && pyDigit b && b ≠ '0' then some (digitVal b, r)
    else if pyDigit a && a ≠ '0' then some (digitVal a, b :: r)
    else none
  | [a] => if pyDigit a && a ≠ '0' then some (digitVal a, []) else none
  | [] => none

/-- `%I` = `1[0-2]|0[1-9]|[1-9]`. -/
def parseHourTok : List Char → Option (Nat × List Char)
  | a :: b :: r =>
    if a = '1' && (b = '0' || b = '1' || b = '2') then some (10 + digitVal b, r)
    else if a = '0' && pyDigit b && b ≠ '0' then some (digitVal b, r)
    else if pyDigit a && a ≠ '0' then some (digitVal a, b :: r)
    else none
  | [a] => if pyDigit a && a ≠ '0' then some (digitVal a, []) else none
  | [] => none

/-- `%M` = `[0-5]\d|\d`. -/
def parseMinTok : List Char → Option (Nat × List Char)
  | a :: b :: r =>
    if pyDigit a && a ≤ '5' && pyDigit b then some (10 * digitVal a + digitVal b, r)
    else if pyDigit a then some (digitVal a, b :: r)
    else none
  | [a] => if pyDigit a then some (digitVal a, []) else none
  | [] => none

/-- `%S` = `6[0-1]|[0-5]\d|\d` (the regex admits leap seconds 60-61, which the
`datetime` constructor then rejects). -/
def parseSecTok : List Char → Option (Nat × List Char)
  | a :: b :: r =>
    if a = '6' && (b = '0' || b = '1') then some (60 + digitVal b, r)
    else if pyDigit a && a ≤ '5' && pyDigit b then some (10 * digitVal a + digitVal b, r)
    else if pyDigit a then some (digitVal a, b :: r)
    else none
  | [a] => if pyDigit a then some (digitVal a, []) else none
  | [] => none

/-- Whitespace in a `strptime` format string matches `\s+`. -/
def skipWs1 : List Char → Option (List Char)
  | c :: r => if pyWs c then some (r.dropWhile pyWs) else none
  | [] => none

/-- `%p` = `am|pm`, case-insensitive; `true` means PM. -/
def parseAmPm (cs : List Char) : Option (Bool × List Char) :=
  match matchLitCI "am".data cs with
  | some r => some (false, r)
  | none =>
    match matchLitCI "pm".data cs with
    | some r => some (true, r)
    | none => none

/-- Gregorian leap year, as in Python's `calendar.isleap`. -/
def leapYear (y : Nat) : Bool := y % 4 = 0 && (y % 100 ≠ 0 || y % 400 = 0)

/-- Days in a month, as validated by the `datetime` constructor. -/
def daysInMonth (m y : Nat) : Nat :=
  if m = 2 then (if leapYear y then 29 else 28)
  else if m = 4 || m = 6 || m = 9 || m = 11 then 30
  else 31

/-- `strptime("%b %d, %Y %I:%M:%S %p")` plus the `datetime` constructor's
validation, returning `(day, month, year)`.  The hour/minute/AM-PM values are
parsed and range-checked but do not influence the produced date. -/
def parseDateTimeCs (cs : List Char) : Option (Nat × Nat × Nat) := do
  let (m, r1) ← parseMonth cs
  let r2 ← skipWs1 r1
  let (d, r3) ← parseDayTok r2
  let r4 ← matchLit [','] r3
  let r5 ← skipWs1 r4
  let (y, r6) ← read4Digits r5
  let r7 ← skipWs1 r6
  let (_h, r8) ← parseHourTok r7
  let r9 ← matchLit [':'] r8
  let (_mi, r10) ← parseMinTok r9
  let r11 ← matchLit [':'] r10
  let (se, r12) ← parseSecTok r11
  let r13 ← skipWs1 r12
  let (_pm, r14) ← parseAmPm r13
  if r14 = [] ∧ 1 ≤ y ∧ se ≤ 59 ∧ d ≤ daysInMonth m y then some (d, m, y) else none

/-- Two-character zero-padded rendering of `strftime`'s `%d` / `%m`. -/
def pad2 (n : Nat) : List Char :=
  if n < 10 then '0' :: (Nat.repr n).data else (Nat.repr n).data

/-- `convert_date_format` (main.py lines 67-82).  The input is first collapsed
(`re.sub(r'\s+', ' ', ...)`) and stripped — note that this reassigns the local
variable, so the `except` branch returns the *collapsed* string.  On success
the result is `strftime("%d/%m/%Y")` (day and month zero-padded to two digits;
`%Y` prints the year unpadded, as on glibc). -/
def convert_date_format (s : String) : String :=
  let c := pyStrip (collapseWs s.data)
  match parseDateTimeCs c with
  | some (d, m, y) => String.mk (pad2 d ++ '/' :: pad2 m ++ '/' :: (Nat.repr y).data)
  | none => String.mk c

example : convert_date_format "Oct 20, 2025 11:59:00 PM" = "20/10/2025" := by decide
example : convert_date_format "garbage" = "garbage" := by decide
example : convert_date_format "Feb 30, 2025 1:00:00 PM" = "Feb 30, 2025 1:00:00 PM" := by decide
example : convert_date_format "Oct  20,\n2025 11:59:00 PM" = "20/10/2025" := by decide

/-! ## Template detection (`detect_template`, main.py lines 144-154)

`re.compile(r'Pickup\s*:\s*\w{3}\s+\d{1,2},\s+\d{4}\s+\d{1,2}:\d{2}:\d{2}')`
— compiled *without* `re.IGNORECASE`, so the literal `Pickup` is matched
case-sensitively.  `.search` tries every start position left to right. -/

/-- `\d{1,2}` followed by a continuation: regex alternation tries the
two-digit reading first, then the one-digit reading. -/
def d12Then (k : List Char → Bool) : List Char → Bool
  | a :: b :: r => (pyDigit a && pyDigit b && k r) || (pyDigit a && k (b :: r))
  | [a] => pyDigit a && k []
  | [] => false

/-- `\d{2}`. -/
def read2D : List Char → Option (List Char)
  | a :: b :: r => if pyDigit a && pyDigit b then some r else none
  | _ => none

/-- Tail `\d{1,2}:\d{2}:\d{2}` of the detection pattern. -/
def detectTimeTail (r : List Char) : Bool :=
  d12Then (fun r2 =>
    match r2 with
    | ':' :: r3 =>
      match read2D r3 with
      | some (':' :: r4) => (read2D r4).isSome
      | _ => false
    | _ => false) r

/-- Tail `\d{1,2},\s+\d{4}\s+` plus the time tail. -/
def detectDayTail (r : List Char) : Bool :=
  d12Then (fun r2 =>
    match r2 with
    | ',' :: r3 =>
      match skipWs1 r3 with
      | none => false
      | some r4 =>
        match read4Digits r4 with
        | none => false
        | some (_, r5) =>
          match skipWs1 r5 with
          | none => false
          | some r6 => detectTimeTail r6
    | _ => false) r

/-- The full detection pattern anchored at the current position:
`Pickup\s*:\s*\w{3}\s+` plus the day tail. -/
def detectAt (cs : List Char) : Bool :=
  match matchLit "Pickup".data cs with
  | none => false
  | some r1 =>
    match r1.dropWhile pyWs with
    | ':' :: r3 =>
      match r3.dropWhile pyWs with
      | a :: b :: c :: r5 =>
        if pyWord a && pyWord b && pyWord c then
          match skipWs1 r5 with
          | none => false
          | some r6 => detectDayTail r6
        else false
      | _ => false
    | _ => false

/-- `.search`: try the pattern at every start position. -/
def detectScan : List Char → Bool
  | [] => false
  | c :: t => detectAt (c :: t) || detectScan t

/-- `detect_template` (main.py lines 144-154). -/
def detect_template (s : String) : String :=
  if detectScan s.data then "Template-2" else "Template-1"

/-- Variant of `detectAt` following the spec's words, which describe the whole
pattern — including the literal `Pickup` — as matched *case-insensitively*.
Used only to express what the spec claims, for comparison with the code. -/
def detectAtCI (cs : List Char) : Bool :=
  match matchLitCI "pickup".data cs with
  | none => false
  | some r1 =>
    match r1.dropWhile pyWs with
    | ':' :: r3 =>
      match r3.dropWhile pyWs with
      | a :: b :: c :: r5 =>
        if pyWord a && pyWord b && pyWord c then
          match skipWs1 r5 with
          | none => false
          | some r6 => detectDayTail r6
        else false
      | _ => false
    | _ => false

/-- Case-insensitive scan, following the spec's words. -/
def detectScanCI : List Char → Bool
  | [] => false
  | c :: t => detectAtCI (c :: t) || detectScanCI t

example : detect_template "Pickup : Oct 20, 2025 11:59:00 PM" = "Template-2" := by decide
example : detect_template "Pickup On : 20/10/2025" = "Template-1" := by decide
example : detect_template "PICKUP : Oct 1, 2025 1:00:00" = "Template-1" := by decide
example : detectScanCI "PICKUP : Oct 1, 2025 1:00:00".data = true := by decide

/-! ## Stop destinations (`extract_stop_destinations`, main.py lines 156-170)

`re.compile(r'(?s)Stop:\s*(\d+)\s*Destination:\s*(.*?)\s*Stop Location Memo:',
re.IGNORECASE)` iterated with `finditer`; for each match the list is extended
with `""` while `len < stop_number`, then `destinations[stop_number - 1] =
destination` — a Python assignment, which wraps negative indices and raises
`IndexError` when the (wrapped) index is out of range. -/

/-- Split the input at the first case-insensitive occurrence of
`Stop Location Memo:`: returns the text before it and the rest after it.
The non-greedy `(.*?)\s*` group of the regex carries exactly the prefix up to
that occurrence (the `\s*` absorbs trailing whitespace; since the code applies
`.strip()` to the group, both readings yield the same stored value). -/
def findMemoSplit : List Char → Option (List Char × List Char)
  | [] => none
  | c :: t =>
    match matchLitCI "stop location memo:".data (c :: t) with
    | some rest => some ([], rest)
    | none => (findMemoSplit t).map (fun p => (c :: p.1, p.2))

/-- The stop pattern anchored at the current position: `Stop:` (ci), `\s*`,
digits, `\s*`, `Destination:` (ci), `\s*`, then the non-greedy capture up to
`Stop Location Memo:`.  Returns `(stop number, raw destination, rest)`. -/
def matchStopAt (cs : List Char) : Option (Nat × List Char × List Char) := do
  let r1 ← matchLitCI "stop:".data cs
  let r2 := r1.dropWhile pyWs
  let (ds, r3) := r2.span pyDigit
  if ds = [] then none else
    let r4 := r3.dropWhile pyWs
    let r5 ← matchLitCI "destination:".data r4
    let r6 := r5.dropWhile pyWs
    let (g, rest) ← findMemoSplit r6
    some (digitsToNat ds, g, rest)

/-- `finditer`: leftmost matches, resuming after each match.  The fuel is an
upper bound on the number of scanning steps (each step consumes at least one
character). -/
def stopScanAux : Nat → List Char → List (Nat × List Char)
  | 0, _ => []
  | _ + 1, [] => []
  | fuel + 1, c :: t =>
    match matchStopAt (c :: t) with
    | some (n, g, rest) => (n, g) :: stopScanAux fuel rest
    | none => stopScanAux fuel t

/-- All stop-block matches of the document, in order of appearance. -/
def stopMatches (l : List Char) : List (Nat × List Char) :=
  stopScanAux (l.length + 1) l

/-- Python list assignment `l[i] = v`: negative indices wrap once; an index
out of range (after wrapping) raises `IndexError`. -/
def pySetIdx (l : List String) (i : Int) (v : String) : Option (List String) :=
  let j : Int := if i < 0 then (l.length : Int) + i else i
  if 0 ≤ j ∧ j < l.length then some (l.set j.toNat v) else none

/-- `while len(destinations) < stop_number: destinations.append("")`. -/
def extendTo (l : List String) (n : Nat) : List String :=
  l ++ List.replicate (n - l.length) ""

/-- The insertion loop of `extract_stop_destinations`; an `IndexError` from
the assignment aborts the whole extraction (it propagates to the caller). -/
def buildStops : List (Nat × List Char) → List String → Except String (List String)
  | [], acc => .ok acc
  | (n, g) :: rest, acc =>
    let acc1 := extendTo acc n
    match pySetIdx acc1 ((n : Int) - 1) (String.mk (pyStrip g)) with
    | some acc2 => buildStops rest acc2
    | none => .error "IndexError: list assignment index out of range"

/-- `extract_stop_destinations` (main.py lines 156-170), with the possible
`IndexError` made explicit in the result type. -/
def extract_stop_destinations (s : String) : Except String (List String) :=
  buildStops (stopMatches s.data) []

instance {ε α : Type} [DecidableEq ε] [DecidableEq α] : DecidableEq (Except ε α) :=
  fun a b =>
    match a, b with
    | .ok x, .ok y => decidable_of_iff (x = y) (by simp)
    | .error e, .error f => decidable_of_iff (e = f) (by simp)
    | .ok _, .error _ => isFalse (by simp)
    | .error _, .ok _ => isFalse (by simp)

example :
    extract_stop_destinations
      "Stop: 1 Destination: Warehouse A Stop Location Memo: Stop: 2 Destination: Store B Stop Location Memo:"
      = .ok ["Warehouse A", "Store B"] := by decide
example :
    extract_stop_destinations "Stop: 0 Destination: X Stop Location Memo:"
      = .error "IndexError: list assignment index out of range" := by decide
example :
    extract_stop_destinations
      "Stop: 2 Destination: A Stop Location Memo: Stop: 0 Destination: B Stop Location Memo:"
      = .ok ["", "B"] := by decide
example :
    extract_stop_destinations
      "Stop: 2 Destination: B2 Stop Location Memo: Stop: 2 Destination: B3 Stop Location Memo:"
      = .ok ["", "B3"] := by decide

/-! ## Vendor-name extraction (`extract_vendor_name`, main.py lines 84-130)

Three patterns tried in order on the collapsed, stripped string:
Case 1 `^\d+\s*-\s*(.*?)\s*-\s*\d+`, Case 2 `^(.*?)\s*-\s*\d+\s*-`,
Case 3 `^\d+\s*-\s*(.+?)$`; if none matches the collapsed string itself is
returned.  An empty or whitespace-only input short-circuits to `""`. -/

/-- `\s*-\s*\d+` anchored at the current position (the part the non-greedy
Case 1 group scans for).  Whitespace, `-` and digits are pairwise disjoint, so
maximal munch is faithful. -/
def dashNum (l : List Char) : Bool :=
  match l.dropWhile pyWs with
  | '-' :: r => ((r.dropWhile pyWs).takeWhile pyDigit) ≠ []
  | _ => false

/-- `\s*-\s*\d+\s*-` anchored at the current position (scanned for by the
non-greedy Case 2 group). -/
def dashNumDash (l : List Char) : Bool :=
  match l.dropWhile pyWs with
  | '-' :: r =>
    let (ds, r2) := (r.dropWhile pyWs).span pyDigit
    if ds = [] then false else
      match r2.dropWhile pyWs with
      | '-' :: _ => true
      | _ => false
  | _ => false

/-- Scan of a non-greedy `(.*?)` group: find the least prefix length `k` such
that `p` holds at the remaining suffix.  Since `.` does not match a newline,
the scan stops once a newline would have to be included in the group. -/
def findSplit (p : List Char → Bool) : List Char → Option Nat
  | [] => if p [] then some 0 else none
  | c :: t =>
    if p (c :: t) then some 0
    else if c = '\n' then none
    else (findSplit p t).map Nat.succ

/-- Case 1, `^\d+\s*-\s*(.*?)\s*-\s*\d+`: leading digits, a dash, then the
non-greedy group up to the first `\s*-\s*\d+`.  Returns the raw group. -/
def vendorCase1 (c : List Char) : Option (List Char) :=
  let (ds, r1) := c.span pyDigit
  if ds = [] then none else
    match r1.dropWhile pyWs with
    | '-' :: r2 =>
      let r3 := r2.dropWhile pyWs
      (findSplit dashNum r3).map (fun k => r3.take k)
    | _ => none

/-- Case 2, `^(.*?)\s*-\s*\d+\s*-`: non-greedy group from the start up to the
first `\s*-\s*\d+\s*-`. -/
def vendorCase2 (c : List Char) : Option (List Char) :=
  (findSplit dashNumDash c).map (fun k => c.take k)

/-- Case 3, `^\d+\s*-\s*(.+?)$`: leading digits, a dash, then everything to
the end (`$` also matches just before a final newline; the group itself cannot
contain a newline). -/
def vendorCase3 (c : List Char) : Option (List Char) :=
  let (ds, r1) := c.span pyDigit
  if ds = [] then none else
    match r1.dropWhile pyWs with
    | '-' :: r2 =>
      let g := r2.dropWhile pyWs
      let core := g.takeWhile (· ≠ '\n')
      if core ≠ [] ∧ (g.drop core.length = [] ∨ g.drop core.length = ['\n']) then
        some core
      else none
    | _ => none

/-- `extract_vendor_name` (main.py lines 84-130). -/
def extract_vendor_name (s : String) : String :=
  if pyStrip s.data = [] then "" else
    let c := pyStrip (collapseWs s.data)
    match vendorCase1 c with
    | some g => String.mk (pyStrip g)
    | none =>
      match vendorCase2 c with
      | some g => String.mk (pyStrip g)
      | none =>
        match vendorCase3 c with
        | some g => String.mk (pyStrip g)
        | none => String.mk c

example :
    extract_vendor_name "Smucker Foods of Canada - 24 - TRA St. Johns - Mount Pearl DC"
      = "Smucker Foods of Canada" := by decide
example : extract_vendor_name "237772 - Agropur Industrial Div" = "Agropur Industrial Div" := by
  decide
example :
    extract_vendor_name "237772 - Agropur Industrial Div - 2 - TRA Location"
      = "Agropur Industrial Div" := by decide
example : extract_vendor_name "no dashes here" = "no dashes here" := by decide
example : extract_vendor_name "  " = "" := by decide
example : extract_vendor_name "a  b" = "a b" := by decide

/-! ## Shared scanning helpers -/

/-- `re.search`: try an anchored matcher at every start position, left to
right, returning the first success. -/
def scanFirstO {α : Type} (f : List Char → Option α) : List Char → Option α
  | [] => f []
  | c :: t =>
    match f (c :: t) with
    | some x => some x
    | none => scanFirstO f t

/-! ## Shipment-type extraction (`extract_shipment_type`, main.py lines 132-142)

`re.compile(rf'[A-Z]{3}-PO-\d{2}-\d{4}-{po_number}\s*\(([^)]+)\)',
re.IGNORECASE)` — under `IGNORECASE` the class `[A-Z]` matches any letter. -/

/-- The shipment-type pattern anchored at the current position; returns the
raw parenthesised capture. -/
def shipTypeAt (po : List Char) (cs : List Char) : Option (List Char) :=
  match cs with
  | a :: b :: c :: r =>
    if pyAlpha a && pyAlpha b && pyAlpha c then do
      let r1 ← matchLitCI "-po-".data r
      let r2 ← read2D r1
      let r3 ← matchLit ['-'] r2
      let (_, r4) ← read4Digits r3
      let r5 ← matchLit ['-'] r4
      let r6 ← matchLitCI po r5
      match r6.dropWhile pyWs with
      | '(' :: r8 =>
        let (g, r9) := r8.span (· ≠ ')')
        if g ≠ [] then
          match r9 with
          | ')' :: _ => some g
          | _ => none
        else none
      | _ => none
    else none
  | _ => none

/-- `extract_shipment_type` (main.py lines 132-142). -/
def extract_shipment_type (text : String) (po : String) : String :=
  match scanFirstO (shipTypeAt po.data) text.data with
  | some g => String.mk (pyStrip g)
  | none => ""

example : extract_shipment_type "AMS-PO-10-2025-4610227518 (GROC)" "4610227518" = "GROC" := by
  decide
example : extract_shipment_type "AMS-PO-10-2025-4610227518 x" "4610227518" = "" := by decide

/-! ## Data model -/

/-- One extracted line item (`LineItemData`, main.py lines 42-51). -/
structure LineItemData where
  vendor_no : String
  vendor_name : String
  cubes : String
  weight : String
  pieces : String
  po : String
  match_end : Nat
deriving Repr, DecidableEq

/-- One output record (the dict built by the two `process_template*`
functions). -/
structure ShipmentRecord where
  template : String
  pickup_date : String
  del_date : String
  ship_from : String
  ship_to : String
  vendor_no : String
  vendor_name : String
  cubes : String
  weight : String
  pieces : String
  po : String
  shipment_type : String
  pallets : String
  description : String
deriving Repr, DecidableEq

/-! ## Template-2 line items (`process_template2` phase 1, main.py lines 260-286)

`re.compile(r'(\d{6})\s+-\s+([\s\S]+?)(?=\s*Cube\s*:)\s*Cube\s*:\s*([0-9,]+)'
`r'\s+Weight\s*:\s*([0-9,]+)\s+Pieces\s*:\s*([0-9,]+)'`
`r'\s+([A-Z]{3}-PO-\d{2}-\d{4}-(\d+))', re.MULTILINE)`.
The lookahead duplicates the following consumed `\s*Cube\s*:`, so the net
effect is: a non-greedy any-character group followed by the deterministic
tail.  The `\s+` before the group backtracks against the group (longest
whitespace first); for each whitespace split the group grows from one
character upward. -/

/-- The deterministic tail `\s*Cube\s*:\s*([0-9,]+)\s+Weight\s*:\s*([0-9,]+)`
`\s+Pieces\s*:\s*([0-9,]+)\s+[A-Z]{3}-PO-\d{2}-\d{4}-(\d+)`; returns the
captures together with the rest of the input after the match. -/
def t2Tail (l : List Char) : Option (List Char × List Char × List Char × List Char × List Char) := do
  let r2 ← matchLit "Cube".data (l.dropWhile pyWs)
  let r4 ← matchLit [':'] (r2.dropWhile pyWs)
  let (cu, r6) := (r4.dropWhile pyWs).span pyNumComma
  if cu = [] then none else do
    let r7 ← skipWs1 r6
    let r8 ← matchLit "Weight".data r7
    let r10 ← matchLit [':'] (r8.dropWhile pyWs)
    let (w, r12) := (r10.dropWhile pyWs).span pyNumComma
    if w = [] then none else do
      let r13 ← skipWs1 r12
      let r14 ← matchLit "Pieces".data r13
      let r16 ← matchLit [':'] (r14.dropWhile pyWs)
      let (pi, r18) := (r16.dropWhile pyWs).span pyNumComma
      if pi = [] then none else do
        let r19 ← skipWs1 r18
        match r19 with
        | a :: b :: c :: rr =>
          if pyUpper a && pyUpper b && pyUpper c then do
            let rr1 ← matchLit "-PO-".data rr
            let rr2 ← read2D rr1
            let rr3 ← matchLit ['-'] rr2
            let (_, rr4) ← read4Digits rr3
            let rr5 ← matchLit ['-'] rr4
            let (po, rr6) := rr5.span pyDigit
            if po = [] then none else some (cu, w, pi, po, rr6)
          else none
        | _ => none

/-- Grow the non-greedy vendor-name group one character at a time (`q` is the
current group length), testing the tail after it. -/
def t2QAux : List Char → Nat → Option (Nat × (List Char × List Char × List Char × List Char × List Char))
  | l, q =>
    match t2Tail l with
    | some res => some (q, res)
    | none =>
      match l with
      | [] => none
      | _ :: t => t2QAux t (q + 1)

/-- Backtrack the `\s+` before the group from its longest extent (`s`) down to
one character; for each extent run the group scan. -/
def t2SLoop (afterDash : List Char) : Nat → Option (List Char × (List Char × List Char × List Char × List Char × List Char))
  | 0 => none
  | s + 1 =>
    let st := afterDash.drop (s + 1)
    match t2QAux (st.drop 1) 1 with
    | some (q, res) => some (st.take q, res)
    | none => t2SLoop afterDash s

/-- The full Template-2 line-item pattern anchored at the current position:
six digits, `\s+-\s+`, the backtracking group, and the tail.  Returns
`(vendor number, raw vendor-name group, cubes, weight, pieces, po, rest)`. -/
def t2MatchAt (cs : List Char) : Option (List Char × List Char × List Char × List Char × List Char × List Char × List Char) :=
  let d6 := cs.take 6
  if d6.length = 6 ∧ d6.all pyDigit then
    match skipWs1 (cs.drop 6) with
    | none => none
    | some r1 =>
      match r1 with
      | '-' :: r2 =>
        let rl := (r2.takeWhile pyWs).length
        match t2SLoop r2 rl with
        | some (raw, (cu, w, pi, po, rest)) => some (d6, raw, cu, w, pi, po, rest)
        | none => none
      | _ => none
  else none

/-- `finditer` for the line-item pattern, building `LineItemData` as the
source loop does (main.py lines 271-284); `pos` is the absolute offset of the
current suffix. -/
def t2ScanAux : Nat → List Char → Nat → List LineItemData
  | 0, _, _ => []
  | _ + 1, [], _ => []
  | fuel + 1, c :: t, pos =>
    match t2MatchAt (c :: t) with
    | some (vno, raw, cu, w, pi, po, rest) =>
      let consumed := (c :: t).length - rest.length
      { vendor_no := String.mk vno,
        vendor_name := String.mk (pyStrip (collapseWs raw)),
        cubes := String.mk cu, weight := String.mk w, pieces := String.mk pi,
        po := String.mk po, match_end := pos + consumed } :: t2ScanAux fuel rest (pos + consumed)
    | none => t2ScanAux fuel t (pos + 1)

/-- All Template-2 line items, in order of appearance. -/
def t2LineItems (text : List Char) : List LineItemData :=
  t2ScanAux (text.length + 1) text 0

/-! ## Template-2 descriptions (`process_template2` phase 2, main.py lines 288-295)

`re.compile(r'Pallet\s+Count:\s*([^\n]+?)(?=\s*(?:Pickup|Delivery|$))',
re.MULTILINE | re.DOTALL)` — with `MULTILINE`, `$` also matches just before
any newline.  The `\s*` after `Count:` backtracks against the group (longest
whitespace first); the single-line group grows from one character upward
until the lookahead holds.  Empty-after-strip captures are dropped by the
`if pallet:` filter in the collection loop. -/

/-- The lookahead `(?=\s*(?:Pickup|Delivery|$))`: after some prefix of the
whitespace run, a `Pickup` or `Delivery` literal or an end-of-line position
must follow.  The literals can only sit at the end of the run; `$` holds at
end of input or wherever the run contains a newline. -/
def palletLook (l : List Char) : Bool :=
  let (w, r) := l.span pyWs
  (matchLit "Pickup".data r).isSome || (matchLit "Delivery".data r).isSome ||
    r = [] || w.contains '\n'

/-- Grow the `[^\n]+?` group until the lookahead holds; `q` is the group
length so far.  Returns the group length and the rest (the lookahead consumes
nothing, so the match ends at the group end). -/
def palletQGo : List Char → Nat → Option Nat
  | l, q =>
    if palletLook l then some q
    else
      match l with
      | [] => none
      | c :: t => if c = '\n' then none else palletQGo t (q + 1)

/-- One whitespace split: group starts at `st`, needs at least one
non-newline character. -/
def palletTryAt (st : List Char) : Option (List Char × List Char) :=
  match st with
  | c :: t =>
    if c = '\n' then none
    else
      match palletQGo t 1 with
      | some q => some (st.take q, st.drop q)
      | none => none
  | [] => none

/-- Backtrack the `\s*` after `Count:` from its longest extent down to zero. -/
def palletSLoop (base : List Char) : Nat → Option (List Char × List Char)
  | 0 => palletTryAt base
  | s + 1 =>
    match palletTryAt (base.drop (s + 1)) with
    | some res => some res
    | none => palletSLoop base s

/-- The pallet pattern anchored at the current position; returns the raw
group and the rest after the match. -/
def palletMatchAt (cs : List Char) : Option (List Char × List Char) := do
  let r1 ← matchLit "Pallet".data cs
  let r2 ← skipWs1 r1
  let r3 ← matchLit "Count:".data r2
  match palletSLoop r3 (r3.takeWhile pyWs).length with
  | some (g, rest) => some (g, rest)
  | none => none

/-- `finditer` plus the `if pallet:` filter of the collection loop. -/
def palletScanAux : Nat → List Char → List String
  | 0, _ => []
  | _ + 1, [] => []
  | fuel + 1, c :: t =>
    match palletMatchAt (c :: t) with
    | some (g, rest) =>
      let p := pyStrip g
      if p ≠ [] then String.mk p :: palletScanAux fuel rest
      else palletScanAux fuel rest
    | none => palletScanAux fuel t

/-- The ordered pallet-description sequence of `process_template2`. -/
def t2PalletData (text : List Char) : List String :=
  palletScanAux (text.length + 1) text

/-! ## Template-2 dates (`process_template2` phase 3, main.py lines 297-304)

`pickup_pattern = re.compile(r'Pickup\s*:\s*([A-Za-z]{3}\s+\d{1,2},\s+\d{4}`
`\s+\d{1,2}:\d{2}:\d{2}\s*(?:AM|PM))', re.IGNORECASE)` and
`deliver_pattern = re.compile(r'Deliver(?:y)?\s*:\s*([A-Za-z]{3}\s+\d{1,2},`
`\s+\d{4}[\s\S]*?\d{1,2}:\d{2}:\d{2}\s*(?:AM|PM))', re.IGNORECASE)`.
Pickup groups are collected raw; delivery groups are collapsed and stripped
at collection time. -/

/-- `\d{1,2}` followed by an `Option`-valued continuation, with the regex
backtracking order: two digits first, then the one-digit fallback. -/
def d12ThenO (k : List Char → Option (List Char)) : List Char → Option (List Char)
  | a :: b :: r =>
    if pyDigit a && pyDigit b then
      match k r with
      | some res => some res
      | none => if pyDigit a then k (b :: r) else none
    else if pyDigit a then k (b :: r) else none
  | [a] => if pyDigit a then k [] else none
  | [] => none

/-- `\s*(?:AM|PM)` case-insensitively. -/
def ampmTail (l : List Char) : Option (List Char) :=
  let r := l.dropWhile pyWs
  match matchLitCI "am".data r with
  | some x => some x
  | none => matchLitCI "pm".data r

/-- `\d{1,2}:\d{2}:\d{2}\s*(?:AM|PM)`. -/
def timeTail (l : List Char) : Option (List Char) :=
  d12ThenO (fun r =>
    match r with
    | ':' :: r2 =>
      match read2D r2 with
      | some (':' :: r4) =>
        match read2D r4 with
        | some r5 => ampmTail r5
        | none => none
      | _ => none
    | _ => none) l

/-- The pickup date-time group body
`[A-Za-z]{3}\s+\d{1,2},\s+\d{4}\s+` plus the time tail. -/
def dtCoreT2 (l : List Char) : Option (List Char) :=
  match l with
  | a :: b :: c :: r =>
    if pyAlpha a && pyAlpha b && pyAlpha c then
      match skipWs1 r with
      | none => none
      | some r1 =>
        d12ThenO (fun r2 =>
          match r2 with
          | ',' :: r3 =>
            match skipWs1 r3 with
            | none => none
            | some r4 =>
              match read4Digits r4 with
              | none => none
              | some (_, r5) =>
                match skipWs1 r5 with
                | none => none
                | some r6 => timeTail r6
          | _ => none) r1
    else none
  | _ => none

/-- The non-greedy `[\s\S]*?` of the delivery pattern: first suffix at which
the time tail matches. -/
def lazyTimeScan : List Char → Option (List Char)
  | [] => timeTail []
  | c :: t =>
    match timeTail (c :: t) with
    | some r => some r
    | none => lazyTimeScan t

/-- The delivery date-time group body: `[A-Za-z]{3}\s+\d{1,2},\s+\d{4}` then
the lazy any-character span and the time tail. -/
def dtCoreDeliver (l : List Char) : Option (List Char) :=
  match l with
  | a :: b :: c :: r =>
    if pyAlpha a && pyAlpha b && pyAlpha c then
      match skipWs1 r with
      | none => none
      | some r1 =>
        d12ThenO (fun r2 =>
          match r2 with
          | ',' :: r3 =>
            match skipWs1 r3 with
            | none => none
            | some r4 =>
              match read4Digits r4 with
              | none => none
              | some (_, r5) => lazyTimeScan r5
          | _ => none) r1
    else none
  | _ => none

/-- The pickup pattern anchored at the current position; returns the raw
group and the rest. -/
def pickupMatchAt (cs : List Char) : Option (List Char × List Char) := do
  let r1 ← matchLitCI "pickup".data cs
  match r1.dropWhile pyWs with
  | ':' :: r3 =>
    let r4 := r3.dropWhile pyWs
    match dtCoreT2 r4 with
    | some rest => some (r4.take (r4.length - rest.length), rest)
    | none => none
  | _ => none

/-- `Deliver(?:y)?\s*:\s*` then the group: the optional `y` is consumed
greedily, falling back to the bare `Deliver` if the rest then fails. -/
def deliverAfter (r : List Char) : Option (List Char × List Char) :=
  match r.dropWhile pyWs with
  | ':' :: r3 =>
    let r4 := r3.dropWhile pyWs
    match dtCoreDeliver r4 with
    | some rest => some (r4.take (r4.length - rest.length), rest)
    | none => none
  | _ => none

/-- The delivery pattern anchored at the current position. -/
def deliverMatchAt (cs : List Char) : Option (List Char × List Char) := do
  let r1 ← matchLitCI "deliver".data cs
  match r1 with
  | c :: t =>
    if lowC c = 'y' then
      match deliverAfter t with
      | some res => some res
      | none => deliverAfter r1
    else deliverAfter r1
  | [] => deliverAfter r1

/-- `finditer` collecting raw pickup groups. -/
def pickupScanAux : Nat → List Char → List String
  | 0, _ => []
  | _ + 1, [] => []
  | fuel + 1, c :: t =>
    match pickupMatchAt (c :: t) with
    | some (g, rest) => String.mk g :: pickupScanAux fuel rest
    | none => pickupScanAux fuel t

/-- All pickup date-times, in document order. -/
def t2PickupDates (text : List Char) : List String :=
  pickupScanAux (text.length + 1) text

/-- `finditer` collecting delivery groups, collapsed and stripped as in
`[re.sub(r'\s+', ' ', m.group(1)).strip() for m in ...]`. -/
def deliverScanAux : Nat → List Char → List String
  | 0, _ => []
  | _ + 1, [] => []
  | fuel + 1, c :: t =>
    match deliverMatchAt (c :: t) with
    | some (g, rest) => String.mk (pyStrip (collapseWs g)) :: deliverScanAux fuel rest
    | none => deliverScanAux fuel t

/-- All delivery date-times, in document order. -/
def t2DeliveryDates (text : List Char) : List String :=
  deliverScanAux (text.length + 1) text

/-! ## Template-2 record assembly (`process_template2`, main.py lines 308-379) -/

/-- `(.+)$` after the second dash of the vendor-stop pattern, together with
the preceding `\s*` (the whitespace backtracks until the any-character group
can match: at least one character, no newline except a final one). -/
def dotPlusValid (l : List Char) : Bool :=
  let core := l.takeWhile (· ≠ '\n')
  core ≠ [] && (l.drop core.length = [] || l.drop core.length = ['\n'])

/-- Try every split of the leading whitespace run before the `(.+)$` group. -/
def dotPlusEndOk : List Char → Bool
  | [] => false
  | c :: t => dotPlusValid (c :: t) || (pyWs c && dotPlusEndOk t)

/-- `re.compile(r'-\s*(\d+)\s*-\s*(.+)$')` anchored at the current position;
only the digit capture is used by the source. -/
def vendorStopAt (l : List Char) : Option (List Char) :=
  match l with
  | '-' :: r =>
    let (ds, r2) := (r.dropWhile pyWs).span pyDigit
    if ds = [] then none
    else
      match r2.dropWhile pyWs with
      | '-' :: r4 => if dotPlusEndOk r4 then some ds else none
      | _ => none
  | _ => none

/-- `.search` for the vendor-stop pattern over the cleaned vendor name. -/
def vendorStopNum (vn : List Char) : Option (List Char) :=
  scanFirstO vendorStopAt vn

/-- `re.compile(r'^(\d+),')` applied to a stop destination. -/
def destNum (d : List Char) : Option (List Char) :=
  let (ds, r) := d.span pyDigit
  if ds = [] then none
  else
    match r with
    | ',' :: _ => some ds
    | _ => none

/-- The per-record ship-to lookup (main.py lines 325-348): extract a stop
number from the vendor name, then take the first stop destination whose text
starts with the same digits followed by a comma; empty when either step
fails. -/
def t2ShipTo (stop_destinations : List String) (vendor_name : String) : String :=
  match vendorStopNum vendor_name.data with
  | none => ""
  | some vsn =>
    match stop_destinations.find? (fun sd => destNum sd.data = some vsn) with
    | some sd => sd
    | none => ""

/-- The date formatting used per record: `convert_date_format(d) if d else ""`. -/
def fmtIfNonempty (d : String) : String :=
  if d ≠ "" then convert_date_format d else ""

/-- `process_template2` (main.py lines 256-379).  Note the `template` field is
the hardcoded `'Template-1'` literal ("as per original Java code"). -/
def process_template2 (text : String) (stop_destinations : List String) : List ShipmentRecord :=
  let line_items := t2LineItems text.data
  let pallet_data := t2PalletData text.data
  let pickup_dates := t2PickupDates text.data
  let delivery_dates := t2DeliveryDates text.data
  let ship_from := stop_destinations.getD 0 ""
  line_items.enum.map (fun p =>
    let idx := p.1
    let item := p.2
    { template := "Template-1",
      del_date := fmtIfNonempty (delivery_dates.getD idx ""),
      pickup_date := fmtIfNonempty (pickup_dates.getD idx ""),
      ship_from := ship_from,
      ship_to := t2ShipTo stop_destinations item.vendor_name,
      vendor_no := item.vendor_no,
      vendor_name := extract_vendor_name item.vendor_name,
      cubes := item.cubes, weight := item.weight, pieces := item.pieces,
      po := item.po,
      shipment_type := extract_shipment_type text item.po,
      pallets := "",
      description := pallet_data.getD idx "" })

/-! ## Template-1 document dates (`process_template1`, main.py lines 190-198)

`re.compile(r'Pickup\s+On\s*:\s*(\d{2}/\d{2}/\d{4})', re.IGNORECASE)` and
`re.compile(r'Deliver\s+On\s*:\s*(\d{2}/\d{2}/\d{4})', re.IGNORECASE)`. -/

/-- `\d{2}/\d{2}/\d{4}`: the exact slash-date shape; returns the matched
characters and the rest. -/
def ddmmyyyy : List Char → Option (List Char × List Char)
  | a :: b :: '/' :: c :: d :: '/' :: e :: f :: g :: h :: r =>
    if pyDigit a && pyDigit b && pyDigit c && pyDigit d &&
        pyDigit e && pyDigit f && pyDigit g && pyDigit h then
      some ([a, b, '/', c, d, '/', e, f, g, h], r)
    else none
  | _ => none

/-- The `Pickup On` pattern anchored at the current position. -/
def pickupOnAt (cs : List Char) : Option (List Char) := do
  let r1 ← matchLitCI "pickup".data cs
  let r2 ← skipWs1 r1
  let r3 ← matchLitCI "on".data r2
  match r3.dropWhile pyWs with
  | ':' :: r5 => (ddmmyyyy (r5.dropWhile pyWs)).map (·.1)
  | _ => none

/-- The `Deliver On` pattern anchored at the current position. -/
def deliverOnAt (cs : List Char) : Option (List Char) := do
  let r1 ← matchLitCI "deliver".data cs
  let r2 ← skipWs1 r1
  let r3 ← matchLitCI "on".data r2
  match r3.dropWhile pyWs with
  | ':' :: r5 => (ddmmyyyy (r5.dropWhile pyWs)).map (·.1)
  | _ => none

/-- The document-level pickup date of Template-1 (`""` when absent). -/
def t1PickupDate (text : List Char) : String :=
  match scanFirstO pickupOnAt text with
  | some g => String.mk g
  | none => ""

/-- The document-level delivery date of Template-1 (`""` when absent). -/
def t1DeliverDate (text : List Char) : String :=
  match scanFirstO deliverOnAt text with
  | some g => String.mk g
  | none => ""

/-! ## Template-1 line items (`REGEX_TEMPLATE1`, main.py line 58)

`r"(\d+)\s+-\s+(.*)\s*Cube\s*:\s*([0-9,]+)\s*Weight\s*:\s*([0-9,]+)\s*`
`Pieces\s*:\s*([0-9,]+)\s*[A-Z]{3}-PO-\d{2}-\d{4}-(\d+).*\s+Ref\s*Number:`
`.*\s*Pallet\s*Count:(.*)\s*(.*)"` — no flags, so `.` stops at newlines and
all literals are case-sensitive.  The three greedy `.*` spans backtrack from
the end of their line leftwards; everything between them is deterministic
(adjacent classes are disjoint). -/

/-- `\s+Ref\s*Number:` anchored at the current position. -/
def refTryAt (x : List Char) : Option (List Char) := do
  let r ← skipWs1 x
  let r2 ← matchLit "Ref".data r
  matchLit "Number:".data (r2.dropWhile pyWs)

/-- Backtracking of the `.*` before `\s+Ref\s*Number:`: try the split at
offset `m` (longest first) within the current line. -/
def t1RefLoop (l : List Char) : Nat → Option (List Char)
  | 0 => refTryAt l
  | m + 1 =>
    match refTryAt (l.drop (m + 1)) with
    | some r => some r
    | none => t1RefLoop l m

/-- `\s*Pallet\s*Count:` anchored at the current position. -/
def palTryAt (x : List Char) : Option (List Char) := do
  let r ← matchLit "Pallet".data (x.dropWhile pyWs)
  matchLit "Count:".data (r.dropWhile pyWs)

/-- Backtracking of the `.*` before `\s*Pallet\s*Count:` (longest split
first, within the current line). -/
def t1PalLoop (l : List Char) : Nat → Option (List Char)
  | 0 => palTryAt l
  | m + 1 =>
    match palTryAt (l.drop (m + 1)) with
    | some r => some r
    | none => t1PalLoop l m

/-- The deterministic tail of `REGEX_TEMPLATE1` after the vendor group:
`\s*Cube\s*:\s*([0-9,]+)\s*Weight\s*:\s*([0-9,]+)\s*Pieces\s*:\s*([0-9,]+)`
`\s*[A-Z]{3}-PO-\d{2}-\d{4}-(\d+)`, then the two `.*` spans around
`Ref Number:` / `Pallet Count:`, then `(.*)\s*(.*)` (the final two greedy
groups take the rest of the line and, after greedy whitespace, the next
line; group 8 is unused by the source).  Returns
`(cubes, weight, pieces, po, group 7, rest)`. -/
def t1Tail (l : List Char) : Option (List Char × List Char × List Char × List Char × List Char × List Char) := do
  let r2 ← matchLit "Cube".data (l.dropWhile pyWs)
  let r4 ← matchLit [':'] (r2.dropWhile pyWs)
  let (cu, r6) := (r4.dropWhile pyWs).span pyNumComma
  if cu = [] then none else do
    let r8 ← matchLit "Weight".data (r6.dropWhile pyWs)
    let r10 ← matchLit [':'] (r8.dropWhile pyWs)
    let (w, r12) := (r10.dropWhile pyWs).span pyNumComma
    if w = [] then none else do
      let r14 ← matchLit "Pieces".data (r12.dropWhile pyWs)
      let r16 ← matchLit [':'] (r14.dropWhile pyWs)
      let (pi, r18) := (r16.dropWhile pyWs).span pyNumComma
      if pi = [] then none else do
        match r18.dropWhile pyWs with
        | a :: b :: c :: rr =>
          if pyUpper a && pyUpper b && pyUpper c then do
            let rr1 ← matchLit "-PO-".data rr
            let rr2 ← read2D rr1
            let rr3 ← matchLit ['-'] rr2
            let (_, rr4) ← read4Digits rr3
            let rr5 ← matchLit ['-'] rr4
            let (po, rr6) := rr5.span pyDigit
            if po = [] then none else do
              let x1 ← t1RefLoop rr6 (rr6.takeWhile (· ≠ '\n')).length
              let x2 ← t1PalLoop x1 (x1.takeWhile (· ≠ '\n')).length
              let g7 := x2.takeWhile (· ≠ '\n')
              let afterG7 := (x2.drop g7.length).dropWhile pyWs
              let g8 := afterG7.takeWhile (· ≠ '\n')
              some (cu, w, pi, po, g7, afterG7.drop g8.length)
          else none
        | _ => none

/-- Backtracking of the greedy vendor group `(.*)`: split offsets `k` within
the current line, longest first. -/
def t1KLoop (st : List Char) : Nat → Option (Nat × (List Char × List Char × List Char × List Char × List Char × List Char))
  | 0 => (t1Tail st).map (fun res => (0, res))
  | k + 1 =>
    match t1Tail (st.drop (k + 1)) with
    | some res => some (k + 1, res)
    | none => t1KLoop st k

/-- Backtracking of the `\s+` before the vendor group (longest first, at
least one character). -/
def t1SLoop (afterDash : List Char) : Nat → Option (List Char × (List Char × List Char × List Char × List Char × List Char × List Char))
  | 0 => none
  | s + 1 =>
    let st := afterDash.drop (s + 1)
    match t1KLoop st (st.takeWhile (· ≠ '\n')).length with
    | some (k, res) => some (st.take k, res)
    | none => t1SLoop afterDash s

/-- One Template-1 line-item match. -/
structure T1Item where
  g1 : List Char
  g2 : List Char
  cu : List Char
  w : List Char
  pi : List Char
  po : List Char
  g7 : List Char
deriving Repr, DecidableEq

/-- `REGEX_TEMPLATE1` anchored at the current position: `(\d+)\s+-\s+` then
the backtracking vendor group and tail. -/
def t1MatchAt (cs : List Char) : Option (T1Item × List Char) :=
  let (ds, r1) := cs.span pyDigit
  if ds = [] then none
  else
    match skipWs1 r1 with
    | none => none
    | some r2 =>
      match r2 with
      | '-' :: r3 =>
        match t1SLoop r3 (r3.takeWhile pyWs).length with
        | some (g2, (cu, w, pi, po, g7, rest)) =>
          some (⟨ds, g2, cu, w, pi, po, g7⟩, rest)
        | none => none
      | _ => none

/-- `finditer` for `REGEX_TEMPLATE1`. -/
def t1ScanAux : Nat → List Char → List T1Item
  | 0, _ => []
  | _ + 1, [] => []
  | fuel + 1, c :: t =>
    match t1MatchAt (c :: t) with
    | some (item, rest) => item :: t1ScanAux fuel rest
    | none => t1ScanAux fuel t

/-- All Template-1 line-item matches, in order of appearance. -/
def t1Matches (text : List Char) : List T1Item :=
  t1ScanAux (text.length + 1) text

/-! ## Template-1 description fallback (main.py lines 222-233)

`re.compile(rf'{re.escape(po_number)}[\s\S]*?Pallet\s+Count:\s*([^\n|]+?)`
`(?=\s*[|]|\s*Cube|\s*Weight|$)', re.IGNORECASE | re.MULTILINE)` — used only
when the primary description capture is empty. -/

/-- The fallback lookahead `(?=\s*[|]|\s*Cube|\s*Weight|$)`: a pipe, `Cube`
or `Weight` (case-insensitively) at the end of the whitespace run, or an
end-of-line position (`$` is multiline here). -/
def poCtxLook (l : List Char) : Bool :=
  let (ww, r) := l.span pyWs
  (match r with
   | '|' :: _ => true
   | _ => false) ||
    (matchLitCI "cube".data r).isSome || (matchLitCI "weight".data r).isSome ||
    r = [] || ww.contains '\n'

/-- Grow the `[^\n|]+?` group until the fallback lookahead holds. -/
def poCtxQGo : List Char → Nat → Option Nat
  | l, q =>
    if poCtxLook l then some q
    else
      match l with
      | [] => none
      | c :: t => if c = '\n' || c = '|' then none else poCtxQGo t (q + 1)

/-- One whitespace split of the fallback group. -/
def poCtxTryAt (st : List Char) : Option (List Char) :=
  match st with
  | c :: t =>
    if c = '\n' || c = '|' then none
    else
      match poCtxQGo t 1 with
      | some q => some (st.take q)
      | none => none
  | [] => none

/-- Backtrack the `\s*` after `Count:` from its longest extent down to zero. -/
def poCtxSLoop (base : List Char) : Nat → Option (List Char)
  | 0 => poCtxTryAt base
  | s + 1 =>
    match poCtxTryAt (base.drop (s + 1)) with
    | some res => some res
    | none => poCtxSLoop base s

/-- `Pallet\s+Count:\s*([^\n|]+?)(?=...)` (case-insensitive), anchored at the
current position. -/
def poCtxPalletAt (cs : List Char) : Option (List Char) := do
  let r1 ← matchLitCI "pallet".data cs
  let r2 ← skipWs1 r1
  let r3 ← matchLitCI "count:".data r2
  poCtxSLoop r3 (r3.takeWhile pyWs).length

/-- The whole fallback search: the first occurrence of the PO digits after
which the pallet part completes somewhere (the `[\s\S]*?` span is
non-greedy, so the first completion after the PO is taken). -/
def poContextDesc (text po : List Char) : Option (List Char) :=
  scanFirstO (fun l => (matchLitCI po l).bind (scanFirstO poCtxPalletAt)) text

/-! ## Template-1 record assembly (`process_template1`, main.py lines 185-254) -/

/-- Python `str.rstrip('|')`. -/
def rstripPipe (l : List Char) : List Char :=
  (l.reverse.dropWhile (· = '|')).reverse

/-- The description of one Template-1 record (main.py lines 215-233): the
stripped group 7 with trailing pipes removed; when that is empty, the
PO-context fallback. -/
def t1Description (text : List Char) (m : T1Item) : List Char :=
  let d0 := if m.g7 = [] then [] else pyStrip m.g7
  let d1 := if d0 ≠ [] then pyStrip (rstripPipe d0) else d0
  if d1 ≠ [] then d1
  else
    match poContextDesc text m.po with
    | some g => pyStrip g
    | none => d1

/-- `process_template1` (main.py lines 185-254). -/
def process_template1 (text : String) (stop_destinations : List String) : List ShipmentRecord :=
  let pickup_date := t1PickupDate text.data
  let del_date := t1DeliverDate text.data
  let ship_from := stop_destinations.getD 0 ""
  let ship_to := stop_destinations.getD 1 ""
  (t1Matches text.data).map (fun m =>
    { template := "Template-1",
      pickup_date := pickup_date,
      del_date := del_date,
      ship_from := ship_from,
      ship_to := ship_to,
      vendor_no := String.mk m.g1,
      vendor_name := extract_vendor_name (String.mk m.g2),
      cubes := String.mk m.cu, weight := String.mk m.w, pieces := String.mk m.pi,
      po := String.mk m.po,
      shipment_type := extract_shipment_type text (String.mk m.po),
      pallets := "",
      description := String.mk (t1Description text.data m) })

/-! ## Orchestration (`parse_pdf` / `parse_directory`, main.py lines 381-464)

The filesystem and the PyPDF2 text extraction are external collaborators
(spec §1, §6); they are modelled as function parameters: `fs path` is `none`
when the file does not resolve, `some (.error e)` when text extraction
raises, and `some (.ok text)` on success; `dirs path` is `none` when the
directory does not resolve and otherwise lists the `*.pdf` files found.
Python's `try/except` envelope discipline is modelled by total functions
returning an envelope with an optional result and an optional error — the
shape of the returned dict (`"result"` or `"error"` key).  The
`processed_at` wall-clock timestamp is outside the model. -/

/-- `Path(p).name` (POSIX form): the part after the last slash. -/
def pathBaseName (p : String) : String :=
  String.mk ((p.data.reverse.takeWhile (· ≠ '/')).reverse)

/-- The success payload of `parse_pdf`. -/
structure ParsePayload where
  template_type : String
  records_count : Nat
  records : List ShipmentRecord
  file_name : String
deriving Repr, DecidableEq

/-- The dict returned by `parse_pdf`: a `"result"` key or an `"error"` key,
plus the `"capability"` tag. -/
structure PdfEnvelope where
  resultPart : Option ParsePayload
  errorPart : Option String
  capability : String
deriving Repr, DecidableEq

/-- `parse_pdf` (main.py lines 381-423).  The `IndexError` that
`extract_stop_destinations` can raise is caught by the surrounding
`except` and becomes the error envelope. -/
def parse_pdf (fs : String → Option (Except String String)) (pdf_path : String) : PdfEnvelope :=
  match fs pdf_path with
  | none => ⟨none, some ("PDF file not found at path: " ++ pdf_path), "parse_pdf"⟩
  | some (.error e) => ⟨none, some e, "parse_pdf"⟩
  | some (.ok text) =>
    let template_type := detect_template text
    match extract_stop_destinations text with
    | .error e => ⟨none, some e, "parse_pdf"⟩
    | .ok stops =>
      let records :=
        if template_type = "Template-1" then process_template1 text stops
        else process_template2 text stops
      ⟨some ⟨template_type, records.length, records, pathBaseName pdf_path⟩, none, "parse_pdf"⟩

/-- One entry of the batch result: a per-document payload or a per-item
error descriptor `{"file": ..., "error": ...}`. -/
inductive DirEntry where
  | ok (payload : ParsePayload)
  | err (file : String) (msg : String)
deriving Repr, DecidableEq

/-- The success payload of `parse_directory`. -/
structure DirPayload where
  total_files : Nat
  results : List DirEntry
deriving Repr, DecidableEq

/-- The dict returned by `parse_directory`. -/
structure DirEnvelope where
  resultPart : Option DirPayload
  errorPart : Option String
  capability : String
deriving Repr, DecidableEq

/-- `parse_directory` (main.py lines 425-464). -/
def parse_directory (fs : String → Option (Except String String))
    (dirs : String → Option (List String)) (directory_path : String) : DirEnvelope :=
  match dirs directory_path with
  | none => ⟨none, some ("Directory not found: " ++ directory_path), "parse_directory"⟩
  | some pdf_files =>
    if pdf_files = [] then
      ⟨none, some ("No PDF files found in directory: " ++ directory_path), "parse_directory"⟩
    else
      let results := pdf_files.map (fun f =>
        let r := parse_pdf fs f
        match r.resultPart with
        | some payload => DirEntry.ok payload
        | none => DirEntry.err f (r.errorPart.getD "Unknown error"))
      ⟨some ⟨pdf_files.length, results⟩, none, "parse_directory"⟩

/-! ## Claim theorems -/

/-- A small Template-2 document with one line item and no dates, pallets or
stops, together with the record the extractor produces for it. -/
def exT2Text : String := "123456 - V Cube : 1 Weight : 1 Pieces : 1 ABC-PO-12-3456-78"

/-- The single record `process_template2 exT2Text []` produces. -/
def exT2Record : ShipmentRecord :=
  { template := "Template-1", pickup_date := "", del_date := "", ship_from := "",
    ship_to := "", vendor_no := "123456", vendor_name := "V", cubes := "1",
    weight := "1", pieces := "1", po := "78", shipment_type := "", pallets := "",
    description := "" }

example : process_template2 exT2Text [] = [exT2Record] := by decide

/-- C1: every `ShipmentRecord` produced by the Template-2 extractor has its
`template` field equal to the TEMPLATE_1 label `"Template-1"` and never
`"Template-2"` — the legacy mislabel of the source (main.py line 361) is
preserved for every input text and stop table. -/
theorem C1_template2_label (text : String) (stops : List String) (r : ShipmentRecord)
    (hr : r ∈ process_template2 text stops) :
    r.template = "Template-1" ∧ r.template ≠ "Template-2" := by
  simp only [process_template2] at hr
  rw [List.mem_map] at hr
  obtain ⟨p, -, rfl⟩ := hr
  refine ⟨rfl, ?_⟩
  show ("Template-1" : String) ≠ "Template-2"
  decide

/-- Witness for C1 at a concrete Template-2 line item. -/
theorem C1_template2_label_witness :
    exT2Record.template = "Template-1" ∧ exT2Record.template ≠ "Template-2" :=
  C1_template2_label exT2Text [] exT2Record (by decide)

/-- C2: in the Template-2 extractor the records appear in line-item order and
the i-th record receives the i-th pickup date, the i-th delivery date (each
passed through the date formatter) and the i-th collected description of the
three independent scans; when the i-th element of a sequence does not exist
the corresponding field is the empty string. -/
theorem C2_positional_pairing (text : String) (stops : List String) :
    (process_template2 text stops).length = (t2LineItems text.data).length ∧
    (∀ i r, (process_template2 text stops)[i]? = some r →
      (∃ item, (t2LineItems text.data)[i]? = some item ∧
        r.vendor_no = item.vendor_no ∧ r.po = item.po) ∧
      r.pickup_date = fmtIfNonempty ((t2PickupDates text.data).getD i "") ∧
      r.del_date = fmtIfNonempty ((t2DeliveryDates text.data).getD i "") ∧
      r.description = (t2PalletData text.data).getD i "" ∧
      ((t2PickupDates text.data).length ≤ i → r.pickup_date = "") ∧
      ((t2DeliveryDates text.data).length ≤ i → r.del_date = "") ∧
      ((t2PalletData text.data).length ≤ i → r.description = "")) := by
  constructor
  · simp [process_template2]
  · intro i r hr
    simp only [process_template2, List.getElem?_map, List.getElem?_enum] at hr
    cases h : (t2LineItems text.data)[i]? with
    | none => rw [h] at hr; simp at hr
    | some item =>
      rw [h] at hr
      simp only [Option.map_some'] at hr
      injection hr with hr
      subst hr
      refine ⟨⟨item, rfl, rfl, rfl⟩, rfl, rfl, rfl, ?_, ?_, ?_⟩
      · intro hle
        show fmtIfNonempty ((t2PickupDates text.data).getD i "") = ""
        rw [List.getD_eq_default _ _ hle]
        rfl
      · intro hle
        show fmtIfNonempty ((t2DeliveryDates text.data).getD i "") = ""
        rw [List.getD_eq_default _ _ hle]
        rfl
      · intro hle
        show (t2PalletData text.data).getD i "" = ""
        rw [List.getD_eq_default _ _ hle]

/-- Witness for C2: the single line item of `exT2Text` has no matching pickup
date, delivery date or description, so all three fields are empty. -/
theorem C2_positional_pairing_witness :
    exT2Record.pickup_date = "" ∧ exT2Record.del_date = "" ∧ exT2Record.description = "" := by
  have h := (C2_positional_pairing exT2Text []).2 0 exT2Record (by decide)
  exact ⟨h.2.2.2.2.1 (by decide), h.2.2.2.2.2.1 (by decide), h.2.2.2.2.2.2 (by decide)⟩

/-- A small Template-1 document with one line item, and its record. -/
def exT1Text : String :=
  "1 - V Cube : 1 Weight : 2 Pieces : 3 ABC-PO-12-3456-7 x Ref Number: n Pallet Count: d"

/-- The single record `process_template1 exT1Text ["A", "B"]` produces. -/
def exT1Record : ShipmentRecord :=
  { template := "Template-1", pickup_date := "", del_date := "", ship_from := "A",
    ship_to := "B", vendor_no := "1", vendor_name := "V", cubes := "1",
    weight := "2", pieces := "3", po := "7", shipment_type := "", pallets := "",
    description := "d" }

example : process_template1 exT1Text ["A", "B"] = [exT1Record] := by decide

/-- C8: every record produced by the Template-1 extractor carries the
document-level pickup and delivery dates (hence all records of one document
share them), `ship_from` equal to the stop table entry at index 0 and
`ship_to` equal to the entry at index 1, empty when the table is too
short. -/
theorem C8_template1_shared_fields (text : String) (stops : List String) (r : ShipmentRecord)
    (hr : r ∈ process_template1 text stops) :
    r.pickup_date = t1PickupDate text.data ∧
    r.del_date = t1DeliverDate text.data ∧
    r.ship_from = stops.getD 0 "" ∧
    r.ship_to = stops.getD 1 "" ∧
    (stops = [] → r.ship_from = "") ∧
    (stops.length < 2 → r.ship_to = "") := by
  simp only [process_template1] at hr
  rw [List.mem_map] at hr
  obtain ⟨m, -, rfl⟩ := hr
  refine ⟨rfl, rfl, rfl, rfl, ?_, ?_⟩
  · intro h
    subst h
    rfl
  · intro h
    show stops.getD 1 "" = ""
    exact List.getD_eq_default _ _ (by omega)

/-- Witness for C8 at a concrete Template-1 line item with a two-entry stop
table. -/
theorem C8_template1_shared_fields_witness :
    exT1Record.ship_from = (["A", "B"] : List String).getD 0 "" ∧
    exT1Record.ship_to = (["A", "B"] : List String).getD 1 "" ∧
    exT1Record.pickup_date = t1PickupDate exT1Text.data := by
  have h := C8_template1_shared_fields exT1Text ["A", "B"] exT1Record (by decide)
  exact ⟨h.2.2.1, h.2.2.2.1, h.1⟩

/-- `detectScan` succeeds exactly when the pattern matches at some start
position. -/
theorem detectScan_iff (l : List Char) :
    detectScan l = true ↔ ∃ pre post, l = pre ++ post ∧ detectAt post = true := by
  induction l with
  | nil =>
    simp only [detectScan]
    constructor
    · intro h
      exact absurd h (by decide)
    · rintro ⟨pre, post, h, hd⟩
      obtain ⟨-, h2⟩ := List.append_eq_nil.mp h.symm
      rw [h2] at hd
      exact absurd hd (by decide)
  | cons c t ih =>
    simp only [detectScan, Bool.or_eq_true]
    constructor
    · rintro (h | h)
      · exact ⟨[], c :: t, rfl, h⟩
      · obtain ⟨pre, post, he, hd⟩ := ih.mp h
        exact ⟨c :: pre, post, by rw [he]; rfl, hd⟩
    · rintro ⟨pre, post, he, hd⟩
      cases pre with
      | nil =>
        left
        rw [List.nil_append] at he
        rw [he]
        exact hd
      | cons p ps =>
        right
        injection he with h1 h2
        exact ih.mpr ⟨ps, post, h2, hd⟩

/-- C3 (amended): the template detector is total — every text yields exactly
one of the two labels — and returns `"Template-2"` precisely when the text
contains a match of the code's pattern
`Pickup\s*:\s*\w{3}\s+\d{1,2},\s+\d{4}\s+\d{1,2}:\d{2}:\d{2}`, whose literal
`Pickup` is matched case-sensitively (the pattern is compiled without
`re.IGNORECASE`). -/
theorem C3_detector_amended (s : String) :
    (detect_template s = "Template-1" ∨ detect_template s = "Template-2") ∧
    (detect_template s = "Template-2" ↔
      ∃ pre post, s.data = pre ++ post ∧ detectAt post = true) := by
  unfold detect_template
  by_cases h : detectScan s.data
  · rw [if_pos h]
    exact ⟨Or.inr rfl, by simp [(detectScan_iff s.data).mp h]⟩
  · rw [if_neg h]
    refine ⟨Or.inl rfl, ?_⟩
    constructor
    · intro hq
      exact absurd hq (by decide)
    · intro hq
      exact absurd ((detectScan_iff s.data).mpr hq) h

/-- Witness for C3: a concrete document-style text classified as
Template-2. -/
theorem C3_detector_amended_witness :
    detect_template "Pickup : Jan 2, 2025 3:04:05" = "Template-2" :=
  (C3_detector_amended _).2.mpr ⟨[], "Pickup : Jan 2, 2025 3:04:05".data, rfl, by decide⟩

/-- Counterexample to C3 as stated: the claim says the pattern (including the
literal `Pickup`) is matched case-insensitively; the spec-side
case-insensitive reading classifies this text as TEMPLATE_2, but the code
returns TEMPLATE_1 because its pattern requires the exact casing `Pickup`. -/
theorem C3_counterexample :
    detectScanCI "PICKUP : Oct 1, 2025 1:00:00".data = true ∧
    detect_template "PICKUP : Oct 1, 2025 1:00:00" = "Template-1" := by
  constructor
  · decide
  · decide

/-- A model collaborator for C9: `a.pdf` extracts to empty text, `b.pdf`
fails extraction, nothing else resolves. -/
def exFs : String → Option (Except String String) :=
  fun p => if p = "a.pdf" then some (.ok "") else if p = "b.pdf" then some (.error "bad pdf") else none

/-- A model directory tree for C9: directory `d` holds the two documents. -/
def exDirs : String → Option (List String) :=
  fun p => if p = "d" then some ["a.pdf", "b.pdf"] else none

/-- C9: both entry points return an envelope populated with exactly one of a
success payload or an error descriptor; `parse_directory` errors when the
directory is unresolvable or empty, and otherwise returns one entry per
document — the per-document payload when its parse succeeded and a per-item
error descriptor otherwise — with `total_files` the number of documents. -/
theorem C9_envelopes (fs : String → Option (Except String String))
    (dirs : String → Option (List String)) (p d : String) :
    ((parse_pdf fs p).resultPart.isSome ∧ (parse_pdf fs p).errorPart = none ∨
      (parse_pdf fs p).resultPart = none ∧ (parse_pdf fs p).errorPart.isSome) ∧
    ((parse_directory fs dirs d).resultPart.isSome ∧
        (parse_directory fs dirs d).errorPart = none ∨
      (parse_directory fs dirs d).resultPart = none ∧
        (parse_directory fs dirs d).errorPart.isSome) ∧
    (dirs d = none → (parse_directory fs dirs d).resultPart = none ∧
      (parse_directory fs dirs d).errorPart.isSome) ∧
    (dirs d = some [] → (parse_directory fs dirs d).resultPart = none ∧
      (parse_directory fs dirs d).errorPart.isSome) ∧
    (∀ files, dirs d = some files → files ≠ [] →
      ∃ payload, (parse_directory fs dirs d).resultPart = some payload ∧
        payload.total_files = files.length ∧
        payload.results.length = files.length ∧
        (∀ (i : Nat) (f : String), files[i]? = some f →
          payload.results[i]? = some
            (match (parse_pdf fs f).resultPart with
             | some pl => DirEntry.ok pl
             | none => DirEntry.err f ((parse_pdf fs f).errorPart.getD "Unknown error")))) := by
  refine ⟨?_, ?_, ?_, ?_, ?_⟩
  · unfold parse_pdf
    cases hf : fs p with
    | none => exact Or.inr ⟨rfl, rfl⟩
    | some e =>
      cases e with
      | error msg => exact Or.inr ⟨rfl, rfl⟩
      | ok text =>
        dsimp only
        cases hs : extract_stop_destinations text with
        | error msg => exact Or.inr ⟨rfl, rfl⟩
        | ok stops => exact Or.inl ⟨rfl, rfl⟩
  · unfold parse_directory
    cases hd : dirs d with
    | none => exact Or.inr ⟨rfl, rfl⟩
    | some files =>
      dsimp only
      by_cases hf : files = []
      · rw [if_pos hf]
        exact Or.inr ⟨rfl, rfl⟩
      · rw [if_neg hf]
        exact Or.inl ⟨rfl, rfl⟩
  · intro hd
    unfold parse_directory
    rw [hd]
    exact ⟨rfl, rfl⟩
  · intro hd
    unfold parse_directory
    rw [hd]
    exact ⟨rfl, rfl⟩
  · intro files hd hne
    unfold parse_directory
    rw [hd]
    dsimp only
    rw [if_neg hne]
    refine ⟨_, rfl, rfl, by simp, ?_⟩
    intro i f hf
    rw [List.getElem?_map, hf]
    rfl

/-- Witness for C9: the directory with one valid and one corrupt document
yields two entries — one payload, one per-item error — and `total_files = 2`;
an unresolvable directory yields an error descriptor. -/
theorem C9_envelopes_witness :
    (parse_directory exFs exDirs "nope").errorPart.isSome ∧
    (parse_directory exFs exDirs "d").resultPart =
      some ⟨2, [DirEntry.ok ⟨"Template-1", 0, [], "a.pdf"⟩,
                DirEntry.err "b.pdf" "bad pdf"]⟩ := by
  constructor
  · exact ((C9_envelopes exFs exDirs "x" "nope").2.2.1 (by decide)).2
  · decide

/-! ## Stop-table characterization (claims C4 and C5) -/

/-- The destination carried by the *last* (rightmost) match with the given
stop number, if any. -/
def lookupLast : List (Nat × List Char) → Nat → Option (List Char)
  | [], _ => none
  | (m, g) :: rest, n =>
    match lookupLast rest n with
    | some r => some r
    | none => if m = n then some g else none

theorem lookupLast_mem {ms : List (Nat × List Char)} {n : Nat} {g : List Char}
    (h : lookupLast ms n = some g) : (n, g) ∈ ms := by
  induction ms with
  | nil => exact absurd h (by simp [lookupLast])
  | cons p rest ih =>
    obtain ⟨m, g0⟩ := p
    simp only [lookupLast] at h
    cases hr : lookupLast rest n with
    | some r =>
      rw [hr] at h
      injection h with h
      subst h
      exact List.mem_cons_of_mem _ (ih hr)
    | none =>
      rw [hr] at h
      by_cases hm : m = n
      · rw [if_pos hm] at h
        injection h with h
        subst h
        subst hm
        exact List.mem_cons_self _ _
      · rw [if_neg hm] at h
        exact absurd h (by simp)

theorem extendTo_length (l : List String) (n : Nat) :
    (extendTo l n).length = max l.length n := by
  simp [extendTo]
  omega

theorem extendTo_getElem? (l : List String) (n j : Nat) :
    (extendTo l n)[j]? =
      if j < l.length then l[j]?
      else if j < max l.length n then some "" else none := by
  unfold extendTo
  rw [List.getElem?_append]
  by_cases h : j < l.length
  · rw [if_pos h, if_pos h]
  · rw [if_neg h, if_neg h]
    simp only [List.getElem?_replicate]
    by_cases h2 : j < max l.length n
    · rw [if_pos (by omega), if_pos h2]
    · rw [if_neg (by omega), if_neg h2]

theorem pySetIdx_pos (l : List String) (v : String) (n : Nat) (h1 : 1 ≤ n)
    (h2 : n ≤ l.length) :
    pySetIdx l ((n : Int) - 1) v = some (l.set (n - 1) v) := by
  simp only [pySetIdx]
  rw [if_neg (show ¬((n : Int) - 1 < 0) by omega)]
  rw [if_pos (show (0 : Int) ≤ (n : Int) - 1 ∧ (n : Int) - 1 < l.length by
    constructor <;> omega)]
  have hn1 : ((n : Int) - 1).toNat = n - 1 := by omega
  rw [hn1]

theorem pySetIdx_length (l : List String) (i : Int) (v : String) (l2 : List String)
    (h : pySetIdx l i v = some l2) : l2.length = l.length := by
  simp only [pySetIdx] at h
  split at h
  all_goals split at h
  all_goals first
    | (injection h with h; rw [← h, List.length_set])
    | exact absurd h (by simp)

theorem buildStops_length_mono :
    ∀ (ms : List (Nat × List Char)) (acc t : List String),
      buildStops ms acc = .ok t → acc.length ≤ t.length := by
  intro ms
  induction ms with
  | nil =>
    intro acc t h
    simp only [buildStops] at h
    injection h with h
    rw [h]
  | cons p rest ih =>
    intro acc t h
    obtain ⟨n, g⟩ := p
    simp only [buildStops] at h
    cases hset : pySetIdx (extendTo acc n) ((n : Int) - 1) (String.mk (pyStrip g)) with
    | none => rw [hset] at h; exact absurd h (by simp)
    | some acc2 =>
      rw [hset] at h
      have hle := ih acc2 t h
      have : acc2.length = (extendTo acc n).length :=
        pySetIdx_length _ _ _ _ hset
      rw [this, extendTo_length] at hle
      omega

theorem buildStops_get :
    ∀ (ms : List (Nat × List Char)) (acc t : List String),
      (∀ p ∈ ms, 1 ≤ p.1) → buildStops ms acc = .ok t → ∀ j : Nat,
      t[j]? =
        match lookupLast ms (j + 1) with
        | some g => some (String.mk (pyStrip g))
        | none =>
          if j < acc.length then acc[j]?
          else if j < t.length then some "" else none := by
  intro ms
  induction ms with
  | nil =>
    intro acc t _ h j
    simp only [buildStops] at h
    injection h with h
    subst h
    simp only [lookupLast]
    by_cases hj : j < acc.length
    · rw [if_pos hj]
    · rw [if_neg hj, if_neg hj]
      exact List.getElem?_eq_none (by omega)
  | cons p rest ih =>
    intro acc t hpos h j
    obtain ⟨n, g⟩ := p
    have hn : 1 ≤ n := hpos (n, g) (List.mem_cons_self _ _)
    have hrestpos : ∀ p ∈ rest, 1 ≤ p.1 := fun p hp => hpos p (List.mem_cons_of_mem _ hp)
    simp only [buildStops] at h
    have hnle : n ≤ (extendTo acc n).length := by rw [extendTo_length]; omega
    rw [pySetIdx_pos _ _ n hn hnle] at h
    have iht := ih _ t hrestpos h
    have hlen2 : ((extendTo acc n).set (n - 1) (String.mk (pyStrip g))).length
        = max acc.length n := by rw [List.length_set, extendTo_length]
    have hlenle : max acc.length n ≤ t.length := by
      have := buildStops_length_mono rest _ t h
      rw [hlen2] at this
      exact this
    simp only [lookupLast]
    cases hr : lookupLast rest (j + 1) with
    | some r =>
      have := iht j
      rw [hr] at this
      exact this
    | none =>
      have hij := iht j
      rw [hr] at hij
      by_cases hnj : n = j + 1
      · rw [if_pos hnj]
        have hjlt : j < ((extendTo acc n).set (n - 1) (String.mk (pyStrip g))).length := by
          rw [hlen2]; omega
        rw [if_pos hjlt] at hij
        rw [hij]
        rw [show n - 1 = j by omega] at *
        rw [List.getElem?_set_self]
        rw [List.length_set] at hjlt
        exact hjlt
      · rw [if_neg hnj]
        have hne : n - 1 ≠ j := by omega
        by_cases hja : j < acc.length
        · rw [if_pos hja]
          have hjlt : j < ((extendTo acc n).set (n - 1) (String.mk (pyStrip g))).length := by
            rw [hlen2]; omega
          rw [if_pos hjlt] at hij
          rw [hij, List.getElem?_set_ne hne, extendTo_getElem?, if_pos hja]
        · rw [if_neg hja]
          by_cases hjm : j < max acc.length n
          · have hjlt : j < ((extendTo acc n).set (n - 1) (String.mk (pyStrip g))).length := by
              rw [hlen2]; omega
            rw [if_pos hjlt] at hij
            rw [hij, List.getElem?_set_ne hne, extendTo_getElem?, if_neg hja, if_pos hjm,
              if_pos (by omega)]
          · have hjlt : ¬ j < ((extendTo acc n).set (n - 1) (String.mk (pyStrip g))).length := by
              rw [hlen2]; omega
            rw [if_neg hjlt] at hij
            exact hij

/-- C4 (amended): provided every matched stop number is positive, the
completed table holds, at index `stopNumber - 1`, the trimmed destination of
the last (rightmost) block with that stop number, and every index not named
by any block is an empty-string placeholder.  (A block `Stop: 0` instead
writes through Python's negative-index wrap-around — see the
counterexample.) -/
theorem C4_stop_table_amended (s : String) (t : List String)
    (hpos : ∀ p ∈ stopMatches s.data, 1 ≤ p.1)
    (ht : extract_stop_destinations s = .ok t) :
    (∀ n g, lookupLast (stopMatches s.data) n = some g →
      t[n - 1]? = some (String.mk (pyStrip g))) ∧
    (∀ j, j < t.length → lookupLast (stopMatches s.data) (j + 1) = none →
      t[j]? = some "") := by
  unfold extract_stop_destinations at ht
  have hget := buildStops_get (stopMatches s.data) [] t hpos ht
  constructor
  · intro n g hg
    have hn : 1 ≤ n := hpos (n, g) (lookupLast_mem hg)
    have := hget (n - 1)
    rw [show n - 1 + 1 = n by omega, hg] at this
    exact this
  · intro j hj hnone
    have := hget j
    rw [hnone] at this
    simp only [List.length_nil] at this
    rw [if_neg (by omega), if_pos hj] at this
    exact this

/-- The text of the C4 counterexample: a `Stop: 2` block followed by a
`Stop: 0` block. -/
def c4ExText : String :=
  "Stop: 2 Destination: A Stop Location Memo: Stop: 0 Destination: B Stop Location Memo:"

/-- Counterexample to C4 as stated: the last (only) block with stop number 2
carries destination `A`, yet the final table holds `B` at index 1 — the
later `Stop: 0` block wrote through Python's negative-index wrap-around onto
the last slot instead of raising or occupying index `-1`. -/
theorem C4_counterexample :
    lookupLast (stopMatches c4ExText.data) 2 = some ['A', ' '] ∧
    extract_stop_destinations c4ExText = .ok ["", "B"] ∧
    ¬ (["", "B"] : List String)[2 - 1]? = some (String.mk (pyStrip ['A', ' '])) := by
  refine ⟨by decide, by decide, by decide⟩

/-- The duplicate-stop text used by the C4 witness. -/
def c4DupText : String :=
  "Stop: 2 Destination: B2 Stop Location Memo: Stop: 2 Destination: B3 Stop Location Memo:"

/-- Witness for C4: with duplicate stop number 2, index 1 holds the later
destination and the skipped index 0 holds the empty placeholder. -/
theorem C4_stop_table_amended_witness :
    (["", "B3"] : List String)[2 - 1]? = some (String.mk (pyStrip ['B', '3', ' '])) ∧
    (["", "B3"] : List String)[0]? = some "" := by
  have h := C4_stop_table_amended c4DupText ["", "B3"] (by decide) (by decide)
  exact ⟨h.1 2 ['B', '3', ' '] (by decide), h.2 0 (by decide) (by decide)⟩

/-- C5 (amended): table construction succeeds for every text whose matched
stop numbers are all positive.  (It is *not* total: a `Stop: 0` block while
the table is empty raises `IndexError` — see the counterexample.) -/
theorem C5_stop_table_total_amended (s : String)
    (hpos : ∀ p ∈ stopMatches s.data, 1 ≤ p.1) :
    (extract_stop_destinations s).toOption.isSome = true := by
  unfold extract_stop_destinations
  suffices h : ∀ (ms : List (Nat × List Char)) (acc : List String),
      (∀ p ∈ ms, 1 ≤ p.1) → (buildStops ms acc).toOption.isSome = true from
    h _ [] hpos
  intro ms
  induction ms with
  | nil => intro acc _; rfl
  | cons p rest ih =>
    intro acc hp
    obtain ⟨n, g⟩ := p
    have hn : 1 ≤ n := hp (n, g) (List.mem_cons_self _ _)
    simp only [buildStops]
    rw [pySetIdx_pos _ _ n hn (by rw [extendTo_length]; omega)]
    exact ih _ (fun q hq => hp q (List.mem_cons_of_mem _ hq))

/-- Counterexample to C5 as stated: a document whose only stop block is
`Stop: 0` makes the construction raise `IndexError` (the assignment
`destinations[-1] = ...` on an empty list), so building the table does not
complete without failure. -/
theorem C5_counterexample :
    extract_stop_destinations "Stop: 0 Destination: X Stop Location Memo:" =
      .error "IndexError: list assignment index out of range" := by decide

/-- Witness for C5 at a concrete document with positive stop numbers. -/
theorem C5_stop_table_total_amended_witness :
    (extract_stop_destinations "Stop: 1 Destination: W Stop Location Memo:").toOption.isSome
      = true :=
  C5_stop_table_total_amended _ (by decide)

/-! ## Symbolic date inputs (claim C6)

To prove the success half of the date-conversion contract, canonical inputs
`<Mon> <d>, <yyyy> <h>:<mm>:<ss> <AM|PM>` are built from numeric components
(`d` and `h` unpadded, minutes/seconds two-digit, the year as four explicit
digits) and run through the embedded `strptime`. -/

/-- The character of a decimal digit. -/
def digitChar (n : Nat) : Char := Char.ofNat (48 + n % 10)

/-- Two-digit zero-padded rendering of `n < 100`. -/
def twoDigitChars (n : Nat) : List Char := [digitChar (n / 10), digitChar n]

/-- Unpadded rendering of `n < 100`. -/
def shortNumChars (n : Nat) : List Char :=
  if n < 10 then [digitChar n] else twoDigitChars n

theorem pyWs_digitChar (n : Nat) : pyWs (digitChar n) = false := by
  unfold digitChar
  have h : n % 10 < 10 := Nat.mod_lt _ (by norm_num)
  generalize n % 10 = k at h
  interval_cases k <;> decide

theorem pyWs_shortNumChars (n : Nat) : ∀ c ∈ shortNumChars n, pyWs c = false := by
  unfold shortNumChars twoDigitChars
  split <;> simp [pyWs_digitChar]

theorem readDigit_digitChar (i : Fin 10) (r : List Char) :
    readDigit (digitChar i.val :: r) = some (i.val, r) := by
  fin_cases i <;> rfl

theorem read4Digits_mk (y1 y2 y3 y4 : Fin 10) (r : List Char) :
    read4Digits (digitChar y1.val :: digitChar y2.val :: digitChar y3.val ::
        digitChar y4.val :: r) =
      some (1000 * y1.val + 100 * y2.val + 10 * y3.val + y4.val, r) := by
  simp [read4Digits, readDigit_digitChar]

theorem parseDayTok_short (d : Nat) (h1 : 1 ≤ d) (h2 : d ≤ 31) (r : List Char) :
    parseDayTok (shortNumChars d ++ ',' :: r) = some (d, ',' :: r) := by
  interval_cases d <;> rfl

theorem parseHourTok_short (h : Nat) (h1 : 1 ≤ h) (h2 : h ≤ 12) (r : List Char) :
    parseHourTok (shortNumChars h ++ ':' :: r) = some (h, ':' :: r) := by
  interval_cases h <;> rfl

theorem parseMinTok_two (mi : Nat) (h : mi ≤ 59) (r : List Char) :
    parseMinTok (twoDigitChars mi ++ r) = some (mi, r) := by
  interval_cases mi <;> rfl

theorem parseSecTok_two (se : Nat) (h : se ≤ 59) (r : List Char) :
    parseSecTok (twoDigitChars se ++ r) = some (se, r) := by
  interval_cases se <;> rfl
